import Mathlib

/-!
# Consensus engine contract (package consensus, file Tugas4/consencus.go)

The source file consists of four interface declarations:
ChainHeaderReader, ChainReader, Engine and PoW.  There are no function
bodies.  The development below embeds the declarations themselves: every
method specification becomes a value of type Method (name, parameters in
order, results in order), every interface body becomes the sequence of its
elements (method specifications and embedded interfaces), and the method set
of an interface is computed from that sequence the way the Go language
defines it.
-/

namespace Consensus

/-- Direction of a Go channel type: chan T, chan<- T or <-chan T. -/
inductive ChanDir
  | both
  | sendOnly
  | recvOnly
  deriving DecidableEq, Repr

/-- Go types occurring in the signatures of the source file. -/
inductive GoType
  | bool
  | uint64
  | float64
  | error
  | emptyStruct
  | named (pkg : String) (name : String)
  | ptr (t : GoType)
  | slice (t : GoType)
  | chan (d : ChanDir) (t : GoType)
  deriving DecidableEq, Repr

/-- One parameter of a method specification. -/
structure Param where
  name : String
  type : GoType
  deriving DecidableEq, Repr

/-- Method specification of an interface: name, parameters, results. -/
structure Method where
  name : String
  params : List Param
  results : List GoType
  deriving DecidableEq, Repr

/-- Interface body: a sequence of elements, each one either a method
specification or an embedded interface. -/
inductive Interface
  | empty
  | method (m : Method) (rest : Interface)
  | embed (i : Interface) (rest : Interface)
  deriving DecidableEq, Repr

/-! ## Types imported by the source file -/

/-- The type common.Hash. -/
def commonHash : GoType := .named "common" "Hash"

/-- The type common.Address. -/
def commonAddress : GoType := .named "common" "Address"

/-- The type types.Header. -/
def typesHeader : GoType := .named "types" "Header"

/-- The type types.Block. -/
def typesBlock : GoType := .named "types" "Block"

/-- The type types.Transaction. -/
def typesTransaction : GoType := .named "types" "Transaction"

/-- The type types.Receipt. -/
def typesReceipt : GoType := .named "types" "Receipt"

/-- The type params.ChainConfig. -/
def paramsChainConfig : GoType := .named "params" "ChainConfig"

/-- The type state.StateDB. -/
def stateStateDB : GoType := .named "state" "StateDB"

/-- The type big.Int. -/
def bigInt : GoType := .named "big" "Int"

/-- The type rpc.API. -/
def rpcAPI : GoType := .named "rpc" "API"

/-- The interface type ChainHeaderReader, used as a parameter type. -/
def chainHeaderReaderT : GoType := .named "consensus" "ChainHeaderReader"

/-- The interface type ChainReader, used as a parameter type. -/
def chainReaderT : GoType := .named "consensus" "ChainReader"

/-! ## ChainHeaderReader (source lines 16 to 34) -/

/-- Config() *params.ChainConfig -/
def Config : Method :=
  ⟨"Config", [], [.ptr paramsChainConfig]⟩

/-- CurrentHeader() *types.Header -/
def CurrentHeader : Method :=
  ⟨"CurrentHeader", [], [.ptr typesHeader]⟩

/-- GetHeader(hash common.Hash, number uint64) *types.Header -/
def GetHeader : Method :=
  ⟨"GetHeader", [⟨"hash", commonHash⟩, ⟨"number", .uint64⟩], [.ptr typesHeader]⟩

/-- GetHeaderByNumber(number uint64) *types.Header -/
def GetHeaderByNumber : Method :=
  ⟨"GetHeaderByNumber", [⟨"number", .uint64⟩], [.ptr typesHeader]⟩

/-- GetHeaderByHash(hash common.Hash) *types.Header -/
def GetHeaderByHash : Method :=
  ⟨"GetHeaderByHash", [⟨"hash", commonHash⟩], [.ptr typesHeader]⟩

/-- GetTd(hash common.Hash, number uint64) *big.Int -/
def GetTd : Method :=
  ⟨"GetTd", [⟨"hash", commonHash⟩, ⟨"number", .uint64⟩], [.ptr bigInt]⟩

/-- The interface ChainHeaderReader. -/
def ChainHeaderReader : Interface :=
  .method Config <|
  .method CurrentHeader <|
  .method GetHeader <|
  .method GetHeaderByNumber <|
  .method GetHeaderByHash <|
  .method GetTd <|
  .empty

/-! ## ChainReader (source lines 37 to 42) -/

/-- GetBlock(hash common.Hash, number uint64) *types.Block -/
def GetBlock : Method :=
  ⟨"GetBlock", [⟨"hash", commonHash⟩, ⟨"number", .uint64⟩], [.ptr typesBlock]⟩

/-- The interface ChainReader: embeds ChainHeaderReader, declares GetBlock. -/
def ChainReader : Interface :=
  .embed ChainHeaderReader <|
  .method GetBlock <|
  .empty

/-! ## Engine (source lines 45 to 83) -/

/-- Author(header *types.Header) (common.Address, error) -/
def Author : Method :=
  ⟨"Author", [⟨"header", .ptr typesHeader⟩], [commonAddress, .error]⟩

/-- VerifyHeader(chain ChainHeaderReader, header *types.Header, seal bool) error -/
def VerifyHeader : Method :=
  ⟨"VerifyHeader",
   [⟨"chain", chainHeaderReaderT⟩, ⟨"header", .ptr typesHeader⟩, ⟨"seal", .bool⟩],
   [.error]⟩

/-- VerifyHeaders(chain ChainHeaderReader, headers []*types.Header, seals []bool)
(chan<- struct, <-chan error) -/
def VerifyHeaders : Method :=
  ⟨"VerifyHeaders",
   [⟨"chain", chainHeaderReaderT⟩, ⟨"headers", .slice (.ptr typesHeader)⟩,
    ⟨"seals", .slice .bool⟩],
   [.chan .sendOnly .emptyStruct, .chan .recvOnly .error]⟩

/-- VerifyUncles(chain ChainReader, block *types.Block) error -/
def VerifyUncles : Method :=
  ⟨"VerifyUncles", [⟨"chain", chainReaderT⟩, ⟨"block", .ptr typesBlock⟩], [.error]⟩

/-- Prepare(chain ChainHeaderReader, header *types.Header) error -/
def Prepare : Method :=
  ⟨"Prepare", [⟨"chain", chainHeaderReaderT⟩, ⟨"header", .ptr typesHeader⟩], [.error]⟩

/-- Finalize(chain ChainHeaderReader, header *types.Header, state *state.StateDB,
txs []*types.Transaction, uncles []*types.Header), without a result. -/
def Finalize : Method :=
  ⟨"Finalize",
   [⟨"chain", chainHeaderReaderT⟩, ⟨"header", .ptr typesHeader⟩,
    ⟨"state", .ptr stateStateDB⟩, ⟨"txs", .slice (.ptr typesTransaction)⟩,
    ⟨"uncles", .slice (.ptr typesHeader)⟩],
   []⟩

/-- FinalizeAndAssemble(chain ChainHeaderReader, header *types.Header,
state *state.StateDB, txs []*types.Transaction, uncles []*types.Header,
receipts []*types.Receipt) (*types.Block, error) -/
def FinalizeAndAssemble : Method :=
  ⟨"FinalizeAndAssemble",
   [⟨"chain", chainHeaderReaderT⟩, ⟨"header", .ptr typesHeader⟩,
    ⟨"state", .ptr stateStateDB⟩, ⟨"txs", .slice (.ptr typesTransaction)⟩,
    ⟨"uncles", .slice (.ptr typesHeader)⟩, ⟨"receipts", .slice (.ptr typesReceipt)⟩],
   [.ptr typesBlock, .error]⟩

/-- Seal(chain ChainHeaderReader, block *types.Block, results chan<- *types.Block,
stop <-chan struct) error -/
def Seal : Method :=
  ⟨"Seal",
   [⟨"chain", chainHeaderReaderT⟩, ⟨"block", .ptr typesBlock⟩,
    ⟨"results", .chan .sendOnly (.ptr typesBlock)⟩,
    ⟨"stop", .chan .recvOnly .emptyStruct⟩],
   [.error]⟩

/-- SealHash(header *types.Header) common.Hash -/
def SealHash : Method :=
  ⟨"SealHash", [⟨"header", .ptr typesHeader⟩], [commonHash]⟩

/-- CalcDifficulty(chain ChainHeaderReader, time uint64, parent *types.Header) *big.Int -/
def CalcDifficulty : Method :=
  ⟨"CalcDifficulty",
   [⟨"chain", chainHeaderReaderT⟩, ⟨"time", .uint64⟩, ⟨"parent", .ptr typesHeader⟩],
   [.ptr bigInt]⟩

/-- APIs(chain ChainHeaderReader) []rpc.API -/
def APIs : Method :=
  ⟨"APIs", [⟨"chain", chainHeaderReaderT⟩], [.slice rpcAPI]⟩

/-- Close() error -/
def Close : Method :=
  ⟨"Close", [], [.error]⟩

/-- The interface Engine. -/
def Engine : Interface :=
  .method Author <|
  .method VerifyHeader <|
  .method VerifyHeaders <|
  .method VerifyUncles <|
  .method Prepare <|
  .method Finalize <|
  .method FinalizeAndAssemble <|
  .method Seal <|
  .method SealHash <|
  .method CalcDifficulty <|
  .method APIs <|
  .method Close <|
  .empty

/-! ## PoW (source lines 86 to 91) -/

/-- Hashrate() float64 -/
def Hashrate : Method :=
  ⟨"Hashrate", [], [.float64]⟩

/-- The interface PoW: embeds Engine, declares Hashrate. -/
def PoW : Interface :=
  .embed Engine <|
  .method Hashrate <|
  .empty

/-! ## Method sets and the typing rules the signatures are read with -/

/-- Method set of an interface: the methods it declares together with the
method sets of the interfaces it embeds, in the order of the body.  The
language takes the union; the interfaces of the source file embed without
overlap (see methodNames_nodup), so the concatenation is that union. -/
def Interface.methodSet : Interface → List Method
  | .empty => []
  | .method m rest => m :: rest.methodSet
  | .embed i rest => i.methodSet ++ rest.methodSet

/-- Names of the methods of an interface, in order. -/
def Interface.methodNames (i : Interface) : List String :=
  i.methodSet.map Method.name

/-- Method of the given name in the method set of an interface. -/
def Interface.lookup (i : Interface) (name : String) : Option Method :=
  i.methodSet.find? (fun m => m.name == name)

/-- Types of the parameters of a method, in order. -/
def Method.paramTypes (m : Method) : List GoType :=
  m.params.map Param.type

/-- Two method specifications are identical when they agree on the name, the
parameter types and the result types; parameter names do not matter. -/
def Method.sameSignature (a b : Method) : Bool :=
  a.name == b.name && a.paramTypes == b.paramTypes && a.results == b.results

/-- An interface type t implements an interface v when every method of v
occurs with an identical signature in the method set of t.  A value of type
t can then be used wherever a value of type v is expected. -/
def Interface.Implements (t v : Interface) : Prop :=
  ∀ m ∈ v.methodSet, ∃ n ∈ t.methodSet, n.sameSignature m = true

instance (t v : Interface) : Decidable (t.Implements v) :=
  inferInstanceAs (Decidable (∀ m ∈ v.methodSet, ∃ n ∈ t.methodSet, n.sameSignature m = true))

/-- Type of the parameter of the given name. -/
def Method.paramType (m : Method) (name : String) : Option GoType :=
  (m.params.find? (fun p => p.name == name)).map Param.type

/-- A method can report a failure to its caller through a result of type
error. -/
def Method.hasErrorResult (m : Method) : Bool :=
  m.results.contains .error

/-- A send statement type-checks only on a channel whose direction permits
sending. -/
def GoType.canSend : GoType → Bool
  | .chan .both _ => true
  | .chan .sendOnly _ => true
  | _ => false

/-- A receive expression type-checks only on a channel whose direction
permits receiving. -/
def GoType.canRecv : GoType → Bool
  | .chan .both _ => true
  | .chan .recvOnly _ => true
  | _ => false

/-- The builtin close type-checks on every channel that is not receive-only. -/
def GoType.canClose : GoType → Bool
  | .chan .both _ => true
  | .chan .sendOnly _ => true
  | _ => false

/-! ## General facts about method sets -/

theorem Method.sameSignature_self (m : Method) : m.sameSignature m = true := by
  simp [Method.sameSignature]

theorem Interface.methodSet_embed (i rest : Interface) :
    (Interface.embed i rest).methodSet = i.methodSet ++ rest.methodSet := rfl

theorem Interface.methodSet_method (m : Method) (rest : Interface) :
    (Interface.method m rest).methodSet = m :: rest.methodSet := rfl

/-- Every interface implements itself. -/
theorem Interface.implements_self (i : Interface) : i.Implements i :=
  fun m hm => ⟨m, hm, Method.sameSignature_self m⟩

/-- An interface implements each interface it embeds first. -/
theorem Interface.embed_implements (i rest : Interface) :
    (Interface.embed i rest).Implements i := by
  intro m hm
  refine ⟨m, ?_, Method.sameSignature_self m⟩
  rw [Interface.methodSet_embed]
  exact List.mem_append_left _ hm

/-- Embedding adds the methods of the rest of the body and removes none. -/
theorem Interface.length_methodSet_embed (i rest : Interface) :
    (Interface.embed i rest).methodSet.length
      = i.methodSet.length + rest.methodSet.length := by
  rw [Interface.methodSet_embed, List.length_append]

/-! ## Facts about the four interfaces of the source file -/

/-- No method name occurs twice in the method set of any of the four
interfaces, so concatenating at an embedding loses and duplicates nothing. -/
theorem methodNames_nodup :
    ChainHeaderReader.methodNames.Nodup ∧ ChainReader.methodNames.Nodup ∧
    Engine.methodNames.Nodup ∧ PoW.methodNames.Nodup := by
  decide

/-- ChainReader has the six methods of ChainHeaderReader followed by GetBlock,
which ChainHeaderReader does not have. -/
theorem ChainReader_methodSet :
    ChainReader.methodSet = ChainHeaderReader.methodSet ++ [GetBlock] ∧
    ChainReader.Implements ChainHeaderReader ∧
    ChainHeaderReader.lookup "GetBlock" = none :=
  ⟨by decide, Interface.embed_implements _ _, by decide⟩

/-- The comment on VerifyHeader mentions a method VerifySeal; neither Engine
nor PoW declares a method of that name. -/
theorem VerifySeal_not_declared :
    Engine.lookup "VerifySeal" = none ∧ PoW.lookup "VerifySeal" = none := by
  decide

/-! ## The claims -/

/-- C7: in the Engine interface Finalize has an empty result list, hence no
result, of type error or other, through which a failure could be handed back,
while FinalizeAndAssemble returns a pointer to a Block together with an error;
the parameters of FinalizeAndAssemble are those of Finalize followed by the
receipts; of the two only FinalizeAndAssemble has an error result. -/
theorem Finalize_no_result_FinalizeAndAssemble_block_or_error :
    Engine.lookup "Finalize" = some Finalize ∧
    Engine.lookup "FinalizeAndAssemble" = some FinalizeAndAssemble ∧
    Finalize.results = [] ∧
    Finalize.hasErrorResult = false ∧
    FinalizeAndAssemble.results = [.ptr typesBlock, .error] ∧
    FinalizeAndAssemble.hasErrorResult = true ∧
    FinalizeAndAssemble.params
      = Finalize.params ++ [⟨"receipts", .slice (.ptr typesReceipt)⟩] ∧
    [Finalize, FinalizeAndAssemble].filter Method.hasErrorResult
      = [FinalizeAndAssemble] := by
  decide

/-- C8: the method set of Engine consists of the twelve operations Author,
VerifyHeader, VerifyHeaders, VerifyUncles, Prepare, Finalize,
FinalizeAndAssemble, Seal, SealHash, CalcDifficulty, APIs and Close; PoW
implements Engine, every Engine method is found in PoW under its name with an
unchanged specification, and the method set of PoW is that of Engine followed
by the single method Hashrate, which takes no parameter and whose only result
is a float64, not an error. -/
theorem PoW_refines_Engine_adding_Hashrate :
    Engine.methodNames
      = ["Author", "VerifyHeader", "VerifyHeaders", "VerifyUncles", "Prepare",
         "Finalize", "FinalizeAndAssemble", "Seal", "SealHash", "CalcDifficulty",
         "APIs", "Close"] ∧
    PoW.Implements Engine ∧
    (∀ m ∈ Engine.methodSet, PoW.lookup m.name = some m) ∧
    PoW.methodSet = Engine.methodSet ++ [Hashrate] ∧
    PoW.methodSet.filter (fun m => !Engine.methodSet.contains m) = [Hashrate] ∧
    Hashrate.params = [] ∧
    Hashrate.results = [.float64] ∧
    Hashrate.hasErrorResult = false := by
  refine ⟨by decide, Interface.embed_implements _ _, by decide, by decide, by decide,
    by decide, by decide, by decide⟩

/-- C10: VerifyHeaders returns, in this order, a send-only channel of empty
structs (the abort channel) and a receive-only channel of errors (the results
channel): the caller may send on and close the first but not receive from it,
and may receive from the second but neither send on it nor close it.  Seal
takes a send-only channel of blocks named results and a receive-only channel
of empty structs named stop: the engine may send on results but not receive
from it, and may receive from stop but neither send on it nor close it. -/
theorem channel_directions_of_VerifyHeaders_and_Seal :
    Engine.lookup "VerifyHeaders" = some VerifyHeaders ∧
    Engine.lookup "Seal" = some Seal ∧
    VerifyHeaders.results = [.chan .sendOnly .emptyStruct, .chan .recvOnly .error] ∧
    VerifyHeaders.results.map GoType.canSend = [true, false] ∧
    VerifyHeaders.results.map GoType.canRecv = [false, true] ∧
    VerifyHeaders.results.map GoType.canClose = [true, false] ∧
    Seal.paramType "results" = some (.chan .sendOnly (.ptr typesBlock)) ∧
    Seal.paramType "stop" = some (.chan .recvOnly .emptyStruct) ∧
    (Seal.paramType "results").map GoType.canSend = some true ∧
    (Seal.paramType "results").map GoType.canRecv = some false ∧
    (Seal.paramType "stop").map GoType.canRecv = some true ∧
    (Seal.paramType "stop").map GoType.canSend = some false ∧
    (Seal.paramType "stop").map GoType.canClose = some false := by
  decide

end Consensus
